import Mathlib

/-!
Verification development for the e-book assembly pipeline (`main.py`).

Python strings are embedded as `List Char` (Python strings are sequences of
Unicode code points, exactly as `List Char`).  Every operation of the source
is translated to an executable Lean function on `List Char`.
-/

set_option maxRecDepth 4096

/-- Coercion from a Lean string literal to the `List Char` embedding of a
Python string. -/
def S (s : String) : List Char := s.data

/-- Embedding of the Python substring test `needle in hay` (contiguous
substring, `"" in s` is true). -/
def containsSub (needle : List Char) : List Char → Bool
  | [] => needle.isPrefixOf []
  | c :: cs => needle.isPrefixOf (c :: cs) || containsSub needle cs

/-- Part strictly after the first occurrence of `sep`, if `sep` occurs.
Scans left to right, exactly as Python `s.split(sep, 1)`. -/
def afterFirstAux (sep : List Char) : List Char → Option (List Char)
  | [] => none
  | c :: cs =>
    if sep.isPrefixOf (c :: cs) then some (List.drop sep.length (c :: cs))
    else afterFirstAux sep cs

/-- Embedding of Python `s.split(sep, 1)[-1]`: the part after the first
occurrence of `sep`, or all of `s` when `sep` does not occur. -/
def afterFirstOcc (sep s : List Char) : List Char :=
  match afterFirstAux sep s with
  | some r => r
  | none => s

/-- Part strictly before the last occurrence of `sep`, if `sep` occurs
(the recursion prefers occurrences further to the right). -/
def beforeLastAux (sep : List Char) : List Char → Option (List Char)
  | [] => none
  | c :: cs =>
    match beforeLastAux sep cs with
    | some r => some (c :: r)
    | none => if sep.isPrefixOf (c :: cs) then some [] else none

/-- Embedding of Python `s.rsplit(sep, 1)[0]`: the part before the last
occurrence of `sep`, or all of `s` when `sep` does not occur. -/
def beforeLastOcc (sep s : List Char) : List Char :=
  match beforeLastAux sep s with
  | some r => r
  | none => s

/-- `sep` occurs nowhere in the list (at no starting position). -/
def noOcc (sep : List Char) : List Char → Bool
  | [] => true
  | c :: cs => !(sep.isPrefixOf (c :: cs)) && noOcc sep cs

/-- For `p` a proper prefix of a longer string that continues with `sep`:
checks that `sep` matches at no position inside `p` of `p ++ sep`.  The first
argument list is kept aligned with the suffixes of `p ++ sep`. -/
def noEarlyOccAux (sep : List Char) : List Char → List Char → Bool
  | _, [] => true
  | [], _ :: _ => true
  | f :: fs, _ :: cs => !(sep.isPrefixOf (f :: fs)) && noEarlyOccAux sep fs cs

/-- Join a list of blocks with a single separator between consecutive
blocks (so `n` blocks are joined by exactly `n - 1` separators). -/
def joinPages (sep : List Char) : List (List Char) → List Char
  | [] => []
  | [b] => b
  | b :: b2 :: bs => b ++ sep ++ joinPages sep (b2 :: bs)

/-- Embedding of Python string repetition `base * n`. -/
def repeatList (l : List Char) : Nat → List Char
  | 0 => []
  | n + 1 => l ++ repeatList l n

/-- Embedding of Python `str(n)` for a natural number. -/
def natStr (n : Nat) : List Char := (toString n).data

/-- Embedding of Python `s.strip()`: drop leading and trailing whitespace. -/
def pyStrip (l : List Char) : List Char :=
  ((l.dropWhile Char.isWhitespace).reverse.dropWhile Char.isWhitespace).reverse

/-- Embedding of Python `s.replace(c, repl)` for a one-character needle:
every occurrence of the character `c` is replaced by `repl`. -/
def pyReplaceChar (c : Char) (repl : List Char) : List Char → List Char
  | [] => []
  | x :: xs => (if x = c then repl else [x]) ++ pyReplaceChar c repl xs

/-- Embedding of the source's `esc` helper (inside `_make_base64_svg`):
`(s or "").replace("&", "&amp;").replace("<", "&lt;").replace(">", "&gt;")`. -/
def esc (s : List Char) : List Char :=
  pyReplaceChar '>' (S "&gt;")
    (pyReplaceChar '<' (S "&lt;") (pyReplaceChar '&' (S "&amp;") s))

/-- UTF-8 encoding of a single code point, as a list of byte values. -/
def utf8EncodeChar (c : Char) : List Nat :=
  let n := c.toNat
  if n < 128 then [n]
  else if n < 2048 then [192 + n / 64, 128 + n % 64]
  else if n < 65536 then [224 + n / 4096, 128 + (n / 64) % 64, 128 + n % 64]
  else [240 + n / 262144, 128 + (n / 4096) % 64, 128 + (n / 64) % 64, 128 + n % 64]

/-- UTF-8 encoding of a string, as Python `s.encode("utf-8")`. -/
def utf8Encode (l : List Char) : List Nat := l.flatMap utf8EncodeChar

/-- The standard base64 alphabet. -/
def base64Table : List Char :=
  S "ABCDEFGHIJKLMNOPQRSTUVWXYZabcdefghijklmnopqrstuvwxyz0123456789+/"

/-- Character of the base64 alphabet at a 6-bit index. -/
def b64char (n : Nat) : Char := base64Table.getD n 'A'

/-- Standard base64 encoding with padding, as Python `base64.b64encode`. -/
def base64Encode : List Nat → List Char
  | [] => []
  | [a] => [b64char (a / 4), b64char ((a % 4) * 16), '=', '=']
  | [a, b] => [b64char (a / 4), b64char ((a % 4) * 16 + b / 16), b64char ((b % 16) * 4), '=']
  | a :: b :: c :: rest =>
    [b64char (a / 4), b64char ((a % 4) * 16 + b / 16),
     b64char ((b % 16) * 4 + c / 64), b64char (c % 64)] ++ base64Encode rest

/-- Decimal rendering of the Python float product `n * (k/10)` used for the
decorative circle coordinates of the SVG template (one fractional digit,
modelled as the exact decimal, e.g. `496.0`, `524.4`). -/
def mulTenths (n k : Nat) : List Char :=
  natStr ((n * k) / 10) ++ S "." ++ natStr ((n * k) % 10)

/-- Decimal rendering of the Python float product `n * (k/100)` (up to two
fractional digits, modelled as the exact decimal, e.g. `600.0`, `524.25`). -/
def mulHundredths (n k : Nat) : List Char :=
  let p := n * k
  if p % 100 = 0 then natStr (p / 100) ++ S ".0"
  else if p % 10 = 0 then natStr (p / 100) ++ S "." ++ natStr ((p % 100) / 10)
  else natStr (p / 100) ++ S "." ++ (if p % 100 < 10 then S "0" else []) ++ natStr (p % 100)

/-- The SVG markup assembled by `_make_base64_svg` before base64 encoding:
the f-string template of the source, with `esc` applied to title, subtitle
and footer, and `bg_color`, `width`, `height` interpolated directly. -/
def svgMarkup (width height : Nat) (bg_color title subtitle footer : List Char) : List Char :=
  S "<svg xmlns=\"http://www.w3.org/2000/svg\" width=\"" ++ natStr width ++
  S "\" height=\"" ++ natStr height ++
  S "\">\n      <defs>\n        <linearGradient id=\"g\" x1=\"0\" y1=\"0\" x2=\"1\" y2=\"1\">\n          <stop offset=\"0%\" stop-color=\"" ++
  bg_color ++
  S "\" stop-opacity=\"0.95\" />\n          <stop offset=\"100%\" stop-color=\"" ++
  bg_color ++
  S "\" stop-opacity=\"0.7\" />\n        </linearGradient>\n      </defs>\n      <rect width=\"100%\" height=\"100%\" fill=\"url(#g)\"/>\n      <g fill=\"#ffffff\" opacity=\"0.15\">\n        <circle cx=\"" ++
  mulTenths width 2 ++ S "\" cy=\"" ++ mulTenths height 3 ++
  S "\" r=\"60\"/>\n        <circle cx=\"" ++
  mulTenths width 8 ++ S "\" cy=\"" ++ mulTenths height 2 ++
  S "\" r=\"40\"/>\n        <circle cx=\"" ++
  mulTenths width 6 ++ S "\" cy=\"" ++ mulHundredths height 75 ++
  S "\" r=\"70\"/>\n      </g>\n      <text x=\"50%\" y=\"45%\" dominant-baseline=\"middle\" text-anchor=\"middle\" font-family=\"Inter, Arial\" font-size=\"28\" font-weight=\"700\" fill=\"#ffffff\">" ++
  esc title ++
  S "</text>\n      <text x=\"50%\" y=\"55%\" dominant-baseline=\"middle\" text-anchor=\"middle\" font-family=\"Inter, Arial\" font-size=\"18\" font-weight=\"500\" fill=\"#f0f0f0\">" ++
  esc subtitle ++
  S "</text>\n      <text x=\"50%\" y=\"90%\" dominant-baseline=\"middle\" text-anchor=\"middle\" font-family=\"Inter, Arial\" font-size=\"14\" fill=\"#f9f9f9\">" ++
  esc footer ++
  S "</text>\n    </svg>"

/-- Modelled from the spec, for claim C4 only: the reading of §4.1 under
which every free-text input — the theme color included — is escaped before
embedding.  It differs from the source template `svgMarkup` only in applying
`esc` to `bg_color`. -/
def svgMarkupSpecEscaped (width height : Nat) (bg_color title subtitle footer : List Char) :
    List Char :=
  S "<svg xmlns=\"http://www.w3.org/2000/svg\" width=\"" ++ natStr width ++
  S "\" height=\"" ++ natStr height ++
  S "\">\n      <defs>\n        <linearGradient id=\"g\" x1=\"0\" y1=\"0\" x2=\"1\" y2=\"1\">\n          <stop offset=\"0%\" stop-color=\"" ++
  esc bg_color ++
  S "\" stop-opacity=\"0.95\" />\n          <stop offset=\"100%\" stop-color=\"" ++
  esc bg_color ++
  S "\" stop-opacity=\"0.7\" />\n        </linearGradient>\n      </defs>\n      <rect width=\"100%\" height=\"100%\" fill=\"url(#g)\"/>\n      <g fill=\"#ffffff\" opacity=\"0.15\">\n        <circle cx=\"" ++
  mulTenths width 2 ++ S "\" cy=\"" ++ mulTenths height 3 ++
  S "\" r=\"60\"/>\n        <circle cx=\"" ++
  mulTenths width 8 ++ S "\" cy=\"" ++ mulTenths height 2 ++
  S "\" r=\"40\"/>\n        <circle cx=\"" ++
  mulTenths width 6 ++ S "\" cy=\"" ++ mulHundredths height 75 ++
  S "\" r=\"70\"/>\n      </g>\n      <text x=\"50%\" y=\"45%\" dominant-baseline=\"middle\" text-anchor=\"middle\" font-family=\"Inter, Arial\" font-size=\"28\" font-weight=\"700\" fill=\"#ffffff\">" ++
  esc title ++
  S "</text>\n      <text x=\"50%\" y=\"55%\" dominant-baseline=\"middle\" text-anchor=\"middle\" font-family=\"Inter, Arial\" font-size=\"18\" font-weight=\"500\" fill=\"#f0f0f0\">" ++
  esc subtitle ++
  S "</text>\n      <text x=\"50%\" y=\"90%\" dominant-baseline=\"middle\" text-anchor=\"middle\" font-family=\"Inter, Arial\" font-size=\"14\" fill=\"#f9f9f9\">" ++
  esc footer ++
  S "</text>\n    </svg>"

/-- Embedding of `_make_base64_svg` from `main.py`: the SVG markup encoded
to a base64 data URI. -/
def _make_base64_svg (width height : Nat) (bg_color title subtitle footer : List Char) :
    List Char :=
  S "data:image/svg+xml;base64," ++
  base64Encode (utf8Encode (svgMarkup width height bg_color title subtitle footer))

/-- Embedding of `_ai_image` from `main.py`.  The loop body
(`subtitle = f"{style} • {prompt[:60]}".strip(); return _make_base64_svg(...)`)
is pure string formatting, which never raises, so the first iteration always
returns; the try/except retry structure over an abstract failure environment
is modelled by `ai_image_with_failures` below, which coincides with this
function when no attempt fails. -/
def _ai_image (prompt style theme_color : List Char) (width height : Nat) : List Char :=
  _make_base64_svg width height theme_color (S "AI Illustration")
    (pyStrip (style ++ S " • " ++ List.take 60 prompt)) (S "Generated Inline")

/-- Embedding of Python `last_error or ""` for the optional last failure
message (an empty message also yields the empty string, as in Python). -/
def pyOrEmpty : Option (List Char) → List Char
  | none => []
  | some e => e

/-- The retry loop of `_ai_image` over an abstract failure environment:
`fail i = some msg` means the `i`-th attempt of the loop body raises with
message `msg`; `fail i = none` means it returns normally.  The fuel is the
number of remaining iterations of `for _ in range(retries + 1)`, and the
third argument is `last_error`. -/
def ai_image_loop (prompt style theme_color : List Char) (width height : Nat)
    (fail : Nat → Option (List Char)) : Nat → Nat → Option (List Char) → List Char
  | 0, _, lastError =>
    _make_base64_svg width height theme_color (S "Image Unavailable")
      (pyOrEmpty lastError) (S "Retry later")
  | fuel + 1, i, _lastError =>
    match fail i with
    | none =>
      _make_base64_svg width height theme_color (S "AI Illustration")
        (pyStrip (style ++ S " • " ++ List.take 60 prompt)) (S "Generated Inline")
    | some e => ai_image_loop prompt style theme_color width height fail fuel (i + 1) (some e)

/-- Model of `_ai_image` with its retry/fallback structure explicit: runs
`retries + 1` attempts of the loop body under the failure environment
`fail`, then falls back.  `ai_image_pure` below shows it equals `_ai_image`
when no attempt fails. -/
def ai_image_with_failures (prompt style theme_color : List Char) (width height retries : Nat)
    (fail : Nat → Option (List Char)) : List Char :=
  ai_image_loop prompt style theme_color width height fail (retries + 1) 0 none

/-- Embedding of the `.replace("\r\n", "\n")` step of
`_split_into_paragraphs` (left-to-right, non-overlapping). -/
def replaceCRLF : List Char → List Char
  | [] => []
  | '\r' :: '\n' :: rest => '\n' :: replaceCRLF rest
  | c :: rest => c :: replaceCRLF rest

/-- Splits a string into its maximal whitespace-free words (the accumulator
holds the current word reversed). -/
def wordsAux (cur : List Char) : List Char → List (List Char)
  | [] => if cur = [] then [] else [cur.reverse]
  | c :: cs =>
    if c.isWhitespace then
      if cur = [] then wordsAux [] cs else cur.reverse :: wordsAux [] cs
    else wordsAux (c :: cur) cs

/-- Splits a single overlong word into chunks of at most `width` characters
(textwrap's `break_long_words` behaviour). -/
def chunksOf (width : Nat) (w : List Char) : List (List Char) :=
  if h : width = 0 ∨ w.length ≤ width then [w]
  else w.take width :: chunksOf width (w.drop width)
termination_by w.length
decreasing_by
  simp only [not_or, not_le] at h
  simp only [List.length_drop]
  omega

/-- Greedy width-bounded line filling: words are added to the current line
while they fit (one joining space), otherwise a new line starts. -/
def fillLines (width : Nat) (line : List Char) : List (List Char) → List (List Char)
  | [] => if line = [] then [] else [line]
  | w :: ws =>
    if line = [] then fillLines width w ws
    else if line.length + 1 + w.length ≤ width then fillLines width (line ++ ' ' :: w) ws
    else line :: fillLines width w ws

/-- Embedding of `_split_into_paragraphs` from `main.py`.  The
`textwrap.wrap(text, width=max_chars)` call is modelled from its documented
default behaviour: whitespace-separated words are wrapped greedily into
lines of at most `max_chars` characters, overlong words are broken into
`max_chars`-sized chunks, and a whitespace-only input yields no lines. -/
def _split_into_paragraphs (text : List Char) (max_chars : Nat) : List (List Char) :=
  let t := replaceCRLF (pyStrip text)
  if t = [] then []
  else fillLines max_chars [] ((wordsAux [] t).flatMap (chunksOf max_chars))

/-- The repeated filler template of `_generate_lorem` (the `base` local). -/
def loremBase (topic style : List Char) : List Char :=
  topic ++ S " — An exploration in " ++ style.map Char.toLower ++ S " tone. " ++
  S "This section delves into the core ideas, practical implications, and examples to make the material engaging and accessible. " ++
  S "We balance clarity with depth, ensuring each concept builds on the previous one while maintaining a compelling narrative arc. " ++
  S "Key takeaways are highlighted with actionable insights and meaningful context. "

/-- Text Synthesizer: embedding of `_generate_lorem` from `main.py`:
`(base * max(1, words // 40))[: words * 5]`. -/
def _generate_lorem (topic style : List Char) (words : Nat) : List Char :=
  List.take (words * 5) (repeatList (loremBase topic style) (max 1 (words / 40)))

/-- Page Planner: embedding of `_length_to_pages` from `main.py`. -/
def _length_to_pages (length : List Char) : Nat :=
  if containsSub (S "Short") length then 5
  else if containsSub (S "Medium") length then 10
  else if containsSub (S "Long") length then 20
  else 5

/-- Stylesheet: embedding of `_common_css` from `main.py` (the adjacent
string literals of the source, concatenated). -/
def _common_css : List Char :=
  S "<style>" ++
  S "@page \x7b size: A4; margin: 20mm; \x7d" ++
  S "body \x7b font-family: Inter, Arial, sans-serif; color: #0f172a; \x7d" ++
  S ".page \x7b width: 210mm; height: 297mm; box-sizing: border-box; padding: 20mm; display: flex; flex-direction: column; justify-content: flex-start; \x7d" ++
  S "h1 \x7b font-size: 32px; font-weight: 700; margin: 0 0 12px; \x7d" ++
  S "h2 \x7b font-size: 26px; font-weight: 600; margin: 0 0 10px; \x7d" ++
  S "p \x7b font-size: 18px; line-height: 1.6; margin: 10px 0; \x7d" ++
  S ".center \x7b display:flex; flex-direction:column; align-items:center; justify-content:center; text-align:center; height:100%; \x7d" ++
  S ".cover-title \x7b font-size: 42px; font-weight: 800; margin-bottom: 8px; \x7d" ++
  S ".cover-subtitle \x7b font-size: 22px; font-weight: 600; opacity: 0.95; \x7d" ++
  S ".author \x7b margin-top: 24px; font-size: 18px; opacity: 0.9; \x7d" ++
  S "img \x7b max-width: 100%; height: auto; border-radius: 8px; \x7d" ++
  S ".page-img \x7b margin: 12px 0 6px; \x7d" ++
  S ".break \x7b page-break-after: always; \x7d" ++
  S "</style>"

/-- The document head shared by every composed document, up to (but not
including) the body-open marker. -/
def docHeadPre : List Char :=
  S "<!DOCTYPE html><html><head>" ++ _common_css ++ S "</head>"

/-- Embedding of the `GenerateRequest` pydantic model (all fields are
Python strings). -/
structure GenerateRequest where
  book_title : List Char
  subtitle : List Char
  author_name : List Char
  theme_color : List Char
  page_background_color : List Char
  writing_style : List Char
  image_style : List Char
  length : List Char
  topic_description : List Char

/-- Embedding of the `GenerateResponse` pydantic model. -/
structure GenerateResponse where
  cover_html : List Char
  content_html : List Char
  full_html : List Char

/-- The cover illustration call of `_cover_html`. -/
def cover_img (req : GenerateRequest) : List Char :=
  _ai_image (S "Book cover about " ++ req.topic_description)
    req.image_style req.theme_color 2480 1748

/-- The body content placed between the body markers by `_cover_html`
(the concatenated f-strings of the source between `<body>` and `</body>`). -/
def coverBody (req : GenerateRequest) : List Char :=
  S "<div class=\"page\" style=\"background-color:" ++ req.theme_color ++ S "; color:white;\">" ++
  S "  <div class=\"center\">" ++
  S "    <img alt=\"Cover\" class=\"page-img\" src=\"" ++ cover_img req ++ S "\" />" ++
  S "    <div class=\"cover-title\">" ++ req.book_title ++ S "</div>" ++
  S "    <div class=\"cover-subtitle\">" ++ req.subtitle ++ S "</div>" ++
  S "    <div class=\"author\">By " ++ req.author_name ++ S "</div>" ++
  S "  </div>" ++
  S "</div>"

/-- The part of `coverBody` after its page-block indicator (used to place
the indicator explicitly). -/
def coverBodyTail (req : GenerateRequest) : List Char :=
  S " style=\"background-color:" ++ req.theme_color ++ S "; color:white;\">" ++
  S "  <div class=\"center\">" ++
  S "    <img alt=\"Cover\" class=\"page-img\" src=\"" ++ cover_img req ++ S "\" />" ++
  S "    <div class=\"cover-title\">" ++ req.book_title ++ S "</div>" ++
  S "    <div class=\"cover-subtitle\">" ++ req.subtitle ++ S "</div>" ++
  S "    <div class=\"author\">By " ++ req.author_name ++ S "</div>" ++
  S "  </div>" ++
  S "</div>"

/-- Cover Composer: embedding of `_cover_html` from `main.py`. -/
def _cover_html (req : GenerateRequest) : List Char :=
  S "<!DOCTYPE html><html><head>" ++ _common_css ++ S "</head><body>" ++
  coverBody req ++
  S "</body></html>"

/-- The fixed heading list `sections` of `_content_pages_html`. -/
def sections : List (List Char) :=
  [S "Introduction", S "Foundations", S "Key Concepts", S "Applications", S "Case Study",
   S "Techniques", S "Best Practices", S "Challenges", S "Future Outlook", S "Conclusion"]

/-- The per-page illustration call of `_content_pages_html`. -/
def pageImage (req : GenerateRequest) (i : Nat) : List Char :=
  _ai_image (sections.getD (i % sections.length) [] ++ S " — " ++ req.topic_description)
    req.image_style req.theme_color 1200 720

/-- The paragraph markup of one content page:
`"".join(f"<p>{p}</p>" for p in paragraphs[:5])`. -/
def paragraphTags (req : GenerateRequest) : List Char :=
  ((_split_into_paragraphs
      (_generate_lorem req.topic_description req.writing_style 250) 600).take 5).flatMap
    (fun p => S "<p>" ++ p ++ S "</p>")

/-- The page block appended by iteration `i` of the `_content_pages_html`
loop (the concatenated f-strings of the `html_parts.append(...)` call). -/
def pageBlock (req : GenerateRequest) (i : Nat) : List Char :=
  S "<div class=\"page\" style=\"background-color:" ++ req.page_background_color ++ S ";\">" ++
  S "  <h2>" ++ natStr (i + 1) ++ S ". " ++ sections.getD (i % sections.length) [] ++ S "</h2>" ++
  S "  <img class=\"page-img\" alt=\"Illustration\" src=\"" ++ pageImage req i ++ S "\" />" ++
  paragraphTags req ++
  S "</div>"

/-- The `for i in range(pages)` loop of `_content_pages_html`: appends the
page block of each iteration, followed by a break marker for every
iteration except the last.  The fuel is the number of remaining iterations
and the second argument is the loop index `i`. -/
def contentLoopAux (req : GenerateRequest) (pages : Nat) : Nat → Nat → List Char
  | 0, _ => []
  | fuel + 1, i =>
    pageBlock req i ++
    (if i < pages - 1 then S "<div class=\"break\"></div>" else []) ++
    contentLoopAux req pages fuel (i + 1)

/-- Content Composer: embedding of `_content_pages_html` from `main.py`
(the `"".join(html_parts)` of the head part, the loop output and the
closing part). -/
def _content_pages_html (req : GenerateRequest) : List Char :=
  S "<!DOCTYPE html><html><head>" ++ _common_css ++ S "</head><body>" ++
  contentLoopAux req (_length_to_pages req.length) (_length_to_pages req.length) 0 ++
  S "</body></html>"

/-- The whole body content of the content document (the loop output). -/
def contentBodyAll (req : GenerateRequest) : List Char :=
  contentLoopAux req (_length_to_pages req.length) (_length_to_pages req.length) 0

/-- The body extraction expression of `_assemble_full_html`:
`doc.split("<body>", 1)[-1].rsplit("</body>", 1)[0]` — everything between
the first body-open marker and the last body-close marker. -/
def extractBody (doc : List Char) : List Char :=
  beforeLastOcc (S "</body>") (afterFirstOcc (S "<body>") doc)

/-- Document Assembler: embedding of `_assemble_full_html` from `main.py`. -/
def _assemble_full_html (cover_html content_html : List Char) : List Char :=
  S "<!DOCTYPE html><html><head>" ++ _common_css ++ S "</head><body>" ++
  extractBody cover_html ++
  S "<div class=\"break\"></div>" ++
  extractBody content_html ++
  S "</body></html>"

/-- Modelled from the spec, for claim C6: re-wrapping an extracted body in
a fresh head+Stylesheet+body envelope, exactly as the Assembler wraps its
merged bodies (§4.6). -/
def rewrapBody (body : List Char) : List Char :=
  S "<!DOCTYPE html><html><head>" ++ _common_css ++ S "</head><body>" ++
  body ++
  S "</body></html>"

/-- Generation entrypoint: embedding of `generate_book` from `main.py`.
The raise/HTTPException path is embedded as `Except.error` carrying the
message of the `ValueError`; the helper calls are pure and never raise, so
the only error source is the explicit page-marker check. -/
def generate_book (req : GenerateRequest) : Except (List Char) GenerateResponse :=
  let cover_html := _cover_html req
  let content_html := _content_pages_html req
  let full_html := _assemble_full_html cover_html content_html
  if containsSub (S "class=\"page\"") full_html then
    Except.ok ⟨cover_html, content_html, full_html⟩
  else
    Except.error (S "No pages generated")

/-- Checks that a string has no unescaped markup-breaking characters: no
raw `<` or `>`, and every `&` starts one of the entities `&amp;`, `&lt;`,
`&gt;`. -/
def noUnescaped : List Char → Bool
  | [] => true
  | x :: xs =>
    if x = '<' then false
    else if x = '>' then false
    else if x = '&' then
      ((S "amp;").isPrefixOf xs || (S "lt;").isPrefixOf xs || (S "gt;").isPrefixOf xs)
        && noUnescaped xs
    else noUnescaped xs

/-- The per-character effect of `esc` (derived form used by the lemmas). -/
def escChar (x : Char) : List Char :=
  if x = '&' then S "&amp;"
  else if x = '<' then S "&lt;"
  else if x = '>' then S "&gt;"
  else [x]

/-- A concrete request used to instantiate universal theorems. -/
def reqEx : GenerateRequest :=
  ⟨S "Atoms", S "A Primer", S "Ada", S "#112233", S "#ffffff",
   S "Formal", S "Sketch", S "Short", S "physics"⟩

/-- A concrete request whose title carries markup-breaking characters. -/
def scriptReq : GenerateRequest :=
  ⟨S "<script>&</script>", S "A Primer", S "Ada", S "#112233", S "#ffffff",
   S "Formal", S "Sketch", S "Short", S "physics"⟩

/-- A failure environment in which every synthesis attempt raises. -/
def failAll : Nat → Option (List Char) := fun _ => some (S "boom")

/-! ### Theorems -/

/-- Helper: a list is a Boolean prefix of itself followed by anything. -/
theorem isPrefixOf_self_append (a r : List Char) : a.isPrefixOf (a ++ r) = true := by
  induction a with
  | nil => cases r <;> rfl
  | cons c cs ih => simp [List.isPrefixOf, ih]

/-- Helper: a Boolean prefix of `x ++ r` no longer than `x` is a prefix of `x`. -/
theorem isPrefixOf_append_of_le (a : List Char) :
    ∀ x r : List Char, a.length ≤ x.length → a.isPrefixOf (x ++ r) = true →
      a.isPrefixOf x = true := by
  induction a with
  | nil => intro x r _ _; cases x <;> rfl
  | cons c cs ih =>
    intro x r hlen h
    cases x with
    | nil => simp at hlen
    | cons b bs =>
      simp only [List.cons_append, List.isPrefixOf, Bool.and_eq_true, beq_iff_eq] at h ⊢
      exact ⟨h.1, ih bs r (by simpa using hlen) h.2⟩

/-- Helper: `containsSub` finds a needle placed right at the front. -/
theorem containsSub_here (n b : List Char) : containsSub n (n ++ b) = true := by
  cases hnb : n ++ b with
  | nil => cases n with
    | nil =>
      cases b with
      | nil => rfl
      | cons x xs => simp at hnb
    | cons x xs => simp at hnb
  | cons c cs =>
    have : n.isPrefixOf (n ++ b) = true := isPrefixOf_self_append n b
    rw [hnb] at this
    simp [containsSub, this]

/-- Helper: `containsSub` is preserved by prepending material. -/
theorem containsSub_prepend (n : List Char) :
    ∀ a l : List Char, containsSub n l = true → containsSub n (a ++ l) = true := by
  intro a
  induction a with
  | nil => intro l h; simpa using h
  | cons c cs ih =>
    intro l h
    have := ih l h
    simp [containsSub, this]

/-- Helper: `containsSub` finds an explicitly positioned needle. -/
theorem containsSub_of_append (n a b : List Char) :
    containsSub n (a ++ (n ++ b)) = true :=
  containsSub_prepend n a (n ++ b) (containsSub_here n b)

/-- Helper: dropping the length of the left part of an append. -/
theorem drop_len_append (a b : List Char) : List.drop a.length (a ++ b) = b := by
  induction a with
  | nil => rfl
  | cons c cs ih => simpa using ih

/-- Helper: the first occurrence of `sep` in `p ++ sep ++ r` is the explicit
one, provided `sep` matches at no position inside `p`. -/
theorem afterFirstAux_append (sep : List Char) (hne : sep ≠ []) :
    ∀ p r : List Char, noEarlyOccAux sep (p ++ sep) p = true →
      afterFirstAux sep (p ++ (sep ++ r)) = some r := by
  intro p
  induction p with
  | nil =>
    intro r _
    rcases sep with _ | ⟨s, ss⟩
    · exact absurd rfl hne
    · have hpre : (s :: ss).isPrefixOf ((s :: ss) ++ r) = true := isPrefixOf_self_append _ _
      have hdrop : List.drop (s :: ss).length ((s :: ss) ++ r) = r := drop_len_append _ _
      rw [List.cons_append] at hpre hdrop
      simp only [List.nil_append, List.cons_append, List.append_eq, afterFirstAux, hpre,
        if_true, hdrop]
  | cons c p' ih =>
    intro r h
    rw [List.cons_append] at h
    simp only [noEarlyOccAux, Bool.and_eq_true, Bool.not_eq_true'] at h
    obtain ⟨h1, h2⟩ := h
    have hguard : sep.isPrefixOf (c :: (p' ++ (sep ++ r))) = false := by
      cases hg : sep.isPrefixOf (c :: (p' ++ (sep ++ r))) with
      | false => rfl
      | true =>
        have hg2 : sep.isPrefixOf ((c :: (p' ++ sep)) ++ r) = true := by
          simpa [List.append_assoc] using hg
        have hlen : sep.length ≤ (c :: (p' ++ sep)).length := by
          simp [List.length_cons, List.length_append]; omega
        have := isPrefixOf_append_of_le sep (c :: (p' ++ sep)) r hlen hg2
        rw [this] at h1
        exact absurd h1 (by simp)
    simp only [List.cons_append, List.append_eq, afterFirstAux, hguard, Bool.false_eq_true,
      if_false]
    exact ih r h2

/-- Helper: if `sep` occurs nowhere in `l`, the backwards search fails. -/
theorem beforeLastAux_none (sep : List Char) :
    ∀ l, noOcc sep l = true → beforeLastAux sep l = none := by
  intro l
  induction l with
  | nil => intro _; rfl
  | cons c cs ih =>
    intro h
    simp only [noOcc, Bool.and_eq_true, Bool.not_eq_true'] at h
    obtain ⟨h1, h2⟩ := h
    simp only [beforeLastAux, ih h2, h1, Bool.false_eq_true, if_false]

/-- Helper: the last occurrence of `sep` in `b ++ sep ++ q` is the explicit
one, provided `sep` occurs nowhere strictly after it. -/
theorem beforeLastAux_append (sep q : List Char) (hne : sep ≠ [])
    (hno : noOcc sep (List.tail sep ++ q) = true) :
    ∀ b, beforeLastAux sep (b ++ (sep ++ q)) = some b := by
  intro b
  induction b with
  | nil =>
    rcases sep with _ | ⟨s, ss⟩
    · exact absurd rfl hne
    · have hrec : beforeLastAux (s :: ss) (ss ++ q) = none :=
        beforeLastAux_none _ _ (by simpa using hno)
      have hpre : (s :: ss).isPrefixOf ((s :: ss) ++ q) = true := isPrefixOf_self_append _ _
      rw [List.cons_append] at hpre
      simp only [List.nil_append, List.cons_append, List.append_eq, beforeLastAux, hrec, hpre,
        if_true]
  | cons c b' ih =>
    simp only [List.cons_append, List.append_eq, beforeLastAux, ih]

/-- Helper: body extraction on a well-formed wrapped document recovers
exactly the wrapped body. -/
theorem extractBody_wrapped (p body : List Char)
    (h1 : noEarlyOccAux (S "<body>") (p ++ S "<body>") p = true) :
    extractBody (p ++ (S "<body>" ++ (body ++ (S "</body>" ++ S "</html>")))) = body := by
  have ha := afterFirstAux_append (S "<body>") (by decide) p
    (body ++ (S "</body>" ++ S "</html>")) h1
  have hb := beforeLastAux_append (S "</body>") (S "</html>") (by decide) (by decide) body
  simp only [extractBody, afterFirstOcc, ha, beforeLastOcc, hb]

/-- Helper: the shared document head contains no body-open marker (checked
by evaluation over the concrete head and stylesheet). -/
theorem headPre_noEarly :
    noEarlyOccAux (S "<body>") (docHeadPre ++ S "<body>") docHeadPre = true := by decide

/-- Helper: the cover document in marker-split form. -/
theorem cover_split (req : GenerateRequest) :
    _cover_html req =
      docHeadPre ++ (S "<body>" ++ (coverBody req ++ (S "</body>" ++ S "</html>"))) := by
  unfold _cover_html docHeadPre
  rw [show S "</head><body>" = S "</head>" ++ S "<body>" from rfl,
    show S "</body></html>" = S "</body>" ++ S "</html>" from rfl]
  simp [List.append_assoc]

/-- Helper: extraction on the cover document yields its body content. -/
theorem cover_extract (req : GenerateRequest) :
    extractBody (_cover_html req) = coverBody req := by
  rw [cover_split]
  exact extractBody_wrapped docHeadPre (coverBody req) headPre_noEarly

/-- Helper: the content document in marker-split form. -/
theorem content_split (req : GenerateRequest) :
    _content_pages_html req =
      docHeadPre ++ (S "<body>" ++ (contentBodyAll req ++ (S "</body>" ++ S "</html>"))) := by
  unfold _content_pages_html docHeadPre contentBodyAll
  rw [show S "</head><body>" = S "</head>" ++ S "<body>" from rfl,
    show S "</body></html>" = S "</body>" ++ S "</html>" from rfl]
  simp [List.append_assoc]

/-- Helper: extraction on the content document yields its body content. -/
theorem content_extract (req : GenerateRequest) :
    extractBody (_content_pages_html req) = contentBodyAll req := by
  rw [content_split]
  exact extractBody_wrapped docHeadPre (contentBodyAll req) headPre_noEarly

/-- Helper: the assembled full document, written out with both extracted
bodies resolved. -/
theorem full_eq (req : GenerateRequest) :
    _assemble_full_html (_cover_html req) (_content_pages_html req) =
      S "<!DOCTYPE html><html><head>" ++ _common_css ++ S "</head><body>" ++
      coverBody req ++ S "<div class=\"break\"></div>" ++ contentBodyAll req ++
      S "</body></html>" := by
  unfold _assemble_full_html
  rw [cover_extract, content_extract]

/-- Helper: the cover body starts with the page-block indicator. -/
theorem coverBody_split (req : GenerateRequest) :
    coverBody req = S "<div " ++ (S "class=\"page\"" ++ coverBodyTail req) := by
  unfold coverBody coverBodyTail
  rw [show S "<div class=\"page\" style=\"background-color:" =
    S "<div " ++ (S "class=\"page\"" ++ S " style=\"background-color:") from rfl]
  simp [List.append_assoc]

/-- Helper: the assembled full document always contains the page-block
indicator `class="page"` (from the cover body). -/
theorem marker_in_full (req : GenerateRequest) :
    containsSub (S "class=\"page\"")
      (_assemble_full_html (_cover_html req) (_content_pages_html req)) = true := by
  rw [full_eq req, coverBody_split req]
  simp only [List.append_assoc]
  apply containsSub_prepend
  apply containsSub_prepend
  apply containsSub_prepend
  apply containsSub_prepend
  exact containsSub_here _ _

/-- Helper: the Page Planner only ever produces 5, 10 or 20. -/
theorem length_to_pages_cases (l : List Char) :
    _length_to_pages l = 5 ∨ _length_to_pages l = 10 ∨ _length_to_pages l = 20 := by
  unfold _length_to_pages
  by_cases h1 : containsSub (S "Short") l = true
  · simp [h1]
  · by_cases h2 : containsSub (S "Medium") l = true
    · simp [h1, h2]
    · by_cases h3 : containsSub (S "Long") l = true <;> simp [h1, h2, h3]

/-- Helper: the Page Planner always plans at least five pages. -/
theorem length_to_pages_ge_five (l : List Char) : 5 ≤ _length_to_pages l := by
  rcases length_to_pages_cases l with h | h | h <;> omega

/-- C2: the Page Planner returns 5 for a length category containing "Short",
10 for one containing "Medium" (checked next), 20 for one containing "Long"
(checked next), and 5 for any other string; it never errors, always
producing one of the page counts 5, 10, 20. -/
theorem c2_length_to_pages (l : List Char) :
    (containsSub (S "Short") l = true → _length_to_pages l = 5)
    ∧ (containsSub (S "Short") l = false → containsSub (S "Medium") l = true →
        _length_to_pages l = 10)
    ∧ (containsSub (S "Short") l = false → containsSub (S "Medium") l = false →
        containsSub (S "Long") l = true → _length_to_pages l = 20)
    ∧ (containsSub (S "Short") l = false → containsSub (S "Medium") l = false →
        containsSub (S "Long") l = false → _length_to_pages l = 5)
    ∧ (_length_to_pages l = 5 ∨ _length_to_pages l = 10 ∨ _length_to_pages l = 20) := by
  refine ⟨?_, ?_, ?_, ?_, ?_⟩ <;> unfold _length_to_pages
  · intro h; simp [h]
  · intro h1 h2; simp [h1, h2]
  · intro h1 h2 h3; simp [h1, h2, h3]
  · intro h1 h2 h3; simp [h1, h2, h3]
  · by_cases h1 : containsSub (S "Short") l = true
    · simp [h1]
    · by_cases h2 : containsSub (S "Medium") l = true
      · simp [h1, h2]
      · by_cases h3 : containsSub (S "Long") l = true <;> simp [h1, h2, h3]

/-- Witness for C2: the Page Planner evaluated on the four kinds of
category named by the claim. -/
theorem c2_length_to_pages_witness :
    _length_to_pages (S "Short story") = 5
    ∧ _length_to_pages (S "Medium essay") = 10
    ∧ _length_to_pages (S "Long novel") = 20
    ∧ _length_to_pages (S "epic") = 5 :=
  ⟨(c2_length_to_pages (S "Short story")).1 (by decide),
   (c2_length_to_pages (S "Medium essay")).2.1 (by decide) (by decide),
   (c2_length_to_pages (S "Long novel")).2.2.1 (by decide) (by decide) (by decide),
   (c2_length_to_pages (S "epic")).2.2.2.1 (by decide) (by decide) (by decide)⟩

/-- Helper: `joinPages` peels one block off a nonempty tail. -/
theorem joinPages_cons (sep b : List Char) (l : List (List Char)) (hl : l ≠ []) :
    joinPages sep (b :: l) = b ++ sep ++ joinPages sep l := by
  cases l with
  | nil => exact absurd rfl hl
  | cons b2 bs => rfl

/-- Helper: the content loop emits exactly its page blocks joined by single
break markers, when run to the planned page count. -/
theorem contentLoop_join (req : GenerateRequest) (N : Nat) :
    ∀ k i, i + k = N → 1 ≤ k →
      contentLoopAux req N k i =
        joinPages (S "<div class=\"break\"></div>")
          ((List.range' i k).map (pageBlock req)) := by
  intro k
  induction k with
  | zero => intro i _ hk; omega
  | succ k ih =>
    intro i hik _
    cases k with
    | zero =>
      have hi : ¬ i < N - 1 := by omega
      rw [show List.range' i 1 = [i] from rfl]
      simp [contentLoopAux, hi, joinPages]
    | succ k2 =>
      have hi : i < N - 1 := by omega
      have hne : (List.range' (i + 1) (k2 + 1)).map (pageBlock req) ≠ [] := by
        rw [show List.range' (i + 1) (k2 + 1) = (i + 1) :: List.range' (i + 2) k2 from rfl]
        simp
      rw [show List.range' i (k2 + 1 + 1) = i :: List.range' (i + 1) (k2 + 1) from rfl,
        List.map_cons, joinPages_cons _ _ _ hne, ← ih (i + 1) (by omega) (by omega)]
      simp [contentLoopAux, hi, List.append_assoc]

/-- C1: for every request the generation entrypoint fails with the
structural-integrity error precisely when the page-block indicator
`class="page"` is absent from the assembled full document; otherwise it
returns the three documents (cover, content, full), and on a failure it
returns only the error message, never a partial result. -/
theorem c1_generate_book_failure_mode (req : GenerateRequest) :
    (generate_book req = Except.error (S "No pages generated") ↔
      containsSub (S "class=\"page\"")
        (_assemble_full_html (_cover_html req) (_content_pages_html req)) = false)
    ∧ (generate_book req = Except.error (S "No pages generated")
        ∨ generate_book req =
            Except.ok ⟨_cover_html req, _content_pages_html req,
              _assemble_full_html (_cover_html req) (_content_pages_html req)⟩) := by
  unfold generate_book
  cases h : containsSub (S "class=\"page\"")
      (_assemble_full_html (_cover_html req) (_content_pages_html req)) with
  | false => simp [h]
  | true => simp [h]

/-- C9: for every request the failure branch of the generation entrypoint
is unreachable: the planned page count is at least 5, the assembled full
document contains the `class="page"` indicator, and the entrypoint returns
the three documents successfully. -/
theorem c9_failure_branch_unreachable (req : GenerateRequest) :
    5 ≤ _length_to_pages req.length
    ∧ containsSub (S "class=\"page\"")
        (_assemble_full_html (_cover_html req) (_content_pages_html req)) = true
    ∧ generate_book req =
        Except.ok ⟨_cover_html req, _content_pages_html req,
          _assemble_full_html (_cover_html req) (_content_pages_html req)⟩ := by
  refine ⟨length_to_pages_ge_five _, marker_in_full req, ?_⟩
  unfold generate_book
  simp [marker_in_full req]

/-- C3: the content document is exactly N page blocks joined by exactly
N−1 break markers inside the shared envelope, where N is the planned page
count; the heading of the 0-based page `i` is entry `i mod 10` of the fixed
heading list, so page 11 (index 10) reuses page 1's heading
"Introduction". -/
theorem c3_content_pages_structure (req : GenerateRequest) :
    _content_pages_html req =
      S "<!DOCTYPE html><html><head>" ++ _common_css ++ S "</head><body>" ++
        joinPages (S "<div class=\"break\"></div>")
          ((List.range (_length_to_pages req.length)).map (pageBlock req)) ++
        S "</body></html>"
    ∧ ((List.range (_length_to_pages req.length)).map (pageBlock req)).length
        = _length_to_pages req.length
    ∧ (∀ i, i < _length_to_pages req.length → ∃ rest, pageBlock req i =
        S "<div class=\"page\" style=\"background-color:" ++ req.page_background_color ++
        S ";\">" ++ S "  <h2>" ++ natStr (i + 1) ++ S ". " ++
        sections.getD (i % sections.length) [] ++ rest)
    ∧ sections.getD (10 % sections.length) [] = sections.getD (0 % sections.length) []
    ∧ sections.getD (0 % sections.length) [] = S "Introduction" := by
  refine ⟨?_, by simp, ?_, by decide, by decide⟩
  · unfold _content_pages_html
    rw [List.range_eq_range', contentLoop_join req (_length_to_pages req.length)
      (_length_to_pages req.length) 0 (by omega)
      (by have := length_to_pages_ge_five req.length; omega)]
  · intro i _
    refine ⟨S "</h2>" ++ (S "  <img class=\"page-img\" alt=\"Illustration\" src=\"" ++
      (pageImage req i ++ (S "\" />" ++ (paragraphTags req ++ S "</div>")))), ?_⟩
    simp [pageBlock, List.append_assoc]

/-- Witness for C3: the page-block shape instantiated at the first page of
a concrete short request. -/
theorem c3_content_pages_structure_witness :
    ∃ rest, pageBlock reqEx 0 =
      S "<div class=\"page\" style=\"background-color:" ++ reqEx.page_background_color ++
      S ";\">" ++ S "  <h2>" ++ natStr (0 + 1) ++ S ". " ++
      sections.getD (0 % sections.length) [] ++ rest :=
  (c3_content_pages_structure reqEx).2.2.1 0 (by decide)

/-- C6: extraction with the assembler's marker convention (first body-open,
last body-close) recovers exactly the body content each composer wrapped,
and re-wrapping that body in the assembler's fresh envelope yields a
document containing the original body content verbatim. -/
theorem c6_body_round_trip (req : GenerateRequest) :
    _cover_html req =
      docHeadPre ++ (S "<body>" ++ (coverBody req ++ (S "</body>" ++ S "</html>")))
    ∧ extractBody (_cover_html req) = coverBody req
    ∧ (∃ p q, rewrapBody (extractBody (_cover_html req)) = p ++ coverBody req ++ q)
    ∧ _content_pages_html req =
        docHeadPre ++ (S "<body>" ++ (contentBodyAll req ++ (S "</body>" ++ S "</html>")))
    ∧ extractBody (_content_pages_html req) = contentBodyAll req
    ∧ (∃ p q, rewrapBody (extractBody (_content_pages_html req)) =
        p ++ contentBodyAll req ++ q) := by
  refine ⟨cover_split req, cover_extract req, ?_, content_split req, content_extract req, ?_⟩
  · refine ⟨S "<!DOCTYPE html><html><head>" ++ _common_css ++ S "</head><body>",
      S "</body></html>", ?_⟩
    rw [cover_extract req]
    simp [rewrapBody, List.append_assoc]
  · refine ⟨S "<!DOCTYPE html><html><head>" ++ _common_css ++ S "</head><body>",
      S "</body></html>", ?_⟩
    rw [content_extract req]
    simp [rewrapBody, List.append_assoc]

/-- C8: one identical stylesheet string, `_common_css`, is embedded at the
same envelope position in the cover document, the content document and the
assembled full document of every request. -/
theorem c8_shared_stylesheet (req : GenerateRequest) :
    ∃ b1 b2 b3,
      _cover_html req =
        S "<!DOCTYPE html><html><head>" ++ _common_css ++ (S "</head><body>" ++ b1)
      ∧ _content_pages_html req =
        S "<!DOCTYPE html><html><head>" ++ _common_css ++ (S "</head><body>" ++ b2)
      ∧ _assemble_full_html (_cover_html req) (_content_pages_html req) =
        S "<!DOCTYPE html><html><head>" ++ _common_css ++ (S "</head><body>" ++ b3) := by
  refine ⟨coverBody req ++ S "</body></html>",
    contentBodyAll req ++ S "</body></html>",
    extractBody (_cover_html req) ++ (S "<div class=\"break\"></div>" ++
      (extractBody (_content_pages_html req) ++ S "</body></html>")), ?_, ?_, ?_⟩ <;>
    simp [_cover_html, _content_pages_html, _assemble_full_html, contentBodyAll,
      List.append_assoc]

/-- Helper: the empty list is a Boolean prefix of every list. -/
theorem nil_isPrefixOf (l : List Char) : List.isPrefixOf [] l = true := by
  cases l <;> rfl

/-- Helper: `pyReplaceChar` distributes over append. -/
theorem pyReplaceChar_append (c : Char) (repl : List Char) :
    ∀ a b, pyReplaceChar c repl (a ++ b) =
      pyReplaceChar c repl a ++ pyReplaceChar c repl b := by
  intro a b
  induction a with
  | nil => rfl
  | cons x xs ih => simp [pyReplaceChar, ih, List.append_assoc]

/-- Helper: `esc` acts character by character. -/
theorem esc_cons (x : Char) (s : List Char) : esc (x :: s) = escChar x ++ esc s := by
  by_cases h1 : x = '&'
  · subst h1
    have a1 : pyReplaceChar '<' (S "&lt;") (S "&amp;") = S "&amp;" := by decide
    have a2 : pyReplaceChar '>' (S "&gt;") (S "&amp;") = S "&amp;" := by decide
    simp [esc, escChar, pyReplaceChar, pyReplaceChar_append, a1, a2]
    rfl
  · by_cases h2 : x = '<'
    · subst h2
      have a3 : pyReplaceChar '>' (S "&gt;") (S "&lt;") = S "&lt;" := by decide
      simp [esc, escChar, pyReplaceChar, pyReplaceChar_append, h1, a3]
      rfl
    · by_cases h3 : x = '>'
      · subst h3
        simp [esc, escChar, pyReplaceChar, pyReplaceChar_append, h1, h2]
      · simp [esc, escChar, pyReplaceChar, pyReplaceChar_append, h1, h2, h3]

/-- Helper: prepending the entity `&amp;` preserves escapedness. -/
theorem noUnescaped_amp (l : List Char) (h : noUnescaped l = true) :
    noUnescaped (S "&amp;" ++ l) = true := by
  show noUnescaped ('&' :: 'a' :: 'm' :: 'p' :: ';' :: l) = true
  have hp : (S "amp;").isPrefixOf ('a' :: 'm' :: 'p' :: ';' :: l) = true := by
    show ('a' :: 'm' :: 'p' :: ';' :: ([] : List Char)).isPrefixOf _ = true
    simp [List.isPrefixOf, nil_isPrefixOf]
  simp [noUnescaped, hp, h]

/-- Helper: prepending the entity `&lt;` preserves escapedness. -/
theorem noUnescaped_lt (l : List Char) (h : noUnescaped l = true) :
    noUnescaped (S "&lt;" ++ l) = true := by
  show noUnescaped ('&' :: 'l' :: 't' :: ';' :: l) = true
  have hp : (S "lt;").isPrefixOf ('l' :: 't' :: ';' :: l) = true := by
    show ('l' :: 't' :: ';' :: ([] : List Char)).isPrefixOf _ = true
    simp [List.isPrefixOf, nil_isPrefixOf]
  simp [noUnescaped, hp, h]

/-- Helper: prepending the entity `&gt;` preserves escapedness. -/
theorem noUnescaped_gt (l : List Char) (h : noUnescaped l = true) :
    noUnescaped (S "&gt;" ++ l) = true := by
  show noUnescaped ('&' :: 'g' :: 't' :: ';' :: l) = true
  have hp : (S "gt;").isPrefixOf ('g' :: 't' :: ';' :: l) = true := by
    show ('g' :: 't' :: ';' :: ([] : List Char)).isPrefixOf _ = true
    simp [List.isPrefixOf, nil_isPrefixOf]
  simp [noUnescaped, hp, h]

/-- Helper: the output of `esc` has no unescaped markup-breaking
characters. -/
theorem noUnescaped_esc (s : List Char) : noUnescaped (esc s) = true := by
  induction s with
  | nil => rfl
  | cons x xs ih =>
    rw [esc_cons]
    by_cases h1 : x = '&'
    · subst h1
      rw [show escChar '&' = S "&amp;" from rfl]
      exact noUnescaped_amp _ ih
    · by_cases h2 : x = '<'
      · subst h2
        rw [show escChar '<' = S "&lt;" from rfl]
        exact noUnescaped_lt _ ih
      · by_cases h3 : x = '>'
        · subst h3
          rw [show escChar '>' = S "&gt;" from rfl]
          exact noUnescaped_gt _ ih
        · rw [show escChar x = [x] from by simp [escChar, h1, h2, h3]]
          show noUnescaped (x :: esc xs) = true
          simp [noUnescaped, h1, h2, h3, ih]

/-- Counterexample for C4: with theme color `<`, the SVG markup embeds the
raw `<` unescaped in its gradient stop (substring `stop-color="<"`), while
the spec-escaped form would carry `&lt;` there; so not every free-text
input is escaped before embedding. -/
theorem c4_counterexample_theme_color_unescaped :
    svgMarkup 100 100 (S "<") (S "t") (S "s") (S "f") ≠
      svgMarkupSpecEscaped 100 100 (S "<") (S "t") (S "s") (S "f")
    ∧ containsSub (S "stop-color=\"<\"")
        (svgMarkup 100 100 (S "<") (S "t") (S "s") (S "f")) = true
    ∧ containsSub (S "stop-color=\"<\"")
        (svgMarkupSpecEscaped 100 100 (S "<") (S "t") (S "s") (S "f")) = false
    ∧ esc (S "<") = S "&lt;" := by decide

/-- C4 (amended): the caption inputs (title, subtitle — which carries the
style label and the truncated prompt — and footer) are escaped against
`&`, `<`, `>` before embedding and contain no unescaped occurrence of
them, and in particular the caption of a title `<script>&</script>` is
fully escaped; the theme color however is embedded raw, so the markup
agrees with the fully-escaped form exactly on theme colors that `esc`
leaves unchanged. -/
theorem c4_captions_escaped_amended :
    (∀ (width height : Nat) (bg title subtitle footer : List Char), esc bg = bg →
      svgMarkup width height bg title subtitle footer =
        svgMarkupSpecEscaped width height bg title subtitle footer)
    ∧ (∀ s, noUnescaped (esc s) = true)
    ∧ noUnescaped (esc (S "<script>&</script>")) = true
    ∧ (∀ prompt style theme_color width height,
        _ai_image prompt style theme_color width height =
          _make_base64_svg width height theme_color (S "AI Illustration")
            (pyStrip (style ++ S " • " ++ List.take 60 prompt)) (S "Generated Inline"))
    ∧ (∀ width height bg title subtitle footer,
        _make_base64_svg width height bg title subtitle footer =
          S "data:image/svg+xml;base64," ++
            base64Encode (utf8Encode (svgMarkup width height bg title subtitle footer))) := by
  refine ⟨?_, noUnescaped_esc, noUnescaped_esc _, fun _ _ _ _ _ => rfl, fun _ _ _ _ _ _ => rfl⟩
  intro width height bg title subtitle footer hbg
  unfold svgMarkup svgMarkupSpecEscaped
  rw [hbg]

/-- Witness for C4 (amended): a hex theme color is untouched by `esc`, and
on it the source markup coincides with the fully-escaped form. -/
theorem c4_captions_escaped_amended_witness :
    esc (S "#aabbcc") = S "#aabbcc"
    ∧ svgMarkup 8 8 (S "#aabbcc") (S "t") (S "s") (S "f") =
        svgMarkupSpecEscaped 8 8 (S "#aabbcc") (S "t") (S "s") (S "f") :=
  ⟨by decide, c4_captions_escaped_amended.1 8 8 (S "#aabbcc") (S "t") (S "s") (S "f")
    (by decide)⟩

/-- Helper: under a never-failing environment the retry model returns the
plain `_ai_image` value on the first attempt. -/
theorem ai_image_pure (prompt style theme_color : List Char) (w h r : Nat) :
    ai_image_with_failures prompt style theme_color w h r (fun _ => none) =
      _ai_image prompt style theme_color w h := rfl

/-- C5: the illustration synthesizer model is total and bounded: with the
default budget of 2 retries it consults at most 3 attempts (its value only
depends on the first three entries of the failure environment); if all 3
attempts fail it returns the fallback image titled "Image Unavailable"
whose subtitle is the last failure reason and whose footer is "Retry
later"; and for every environment it returns either the ordinary
synthesized image or such a fallback — it never raises. -/
theorem c5_retry_and_fallback (prompt style theme_color : List Char)
    (width height : Nat) (fail fail2 : Nat → Option (List Char)) :
    ((∀ i, i < 3 → fail i = fail2 i) →
      ai_image_with_failures prompt style theme_color width height 2 fail =
        ai_image_with_failures prompt style theme_color width height 2 fail2)
    ∧ ((∀ i, i < 3 → fail i ≠ none) →
        ∃ e, fail 2 = some e ∧
          ai_image_with_failures prompt style theme_color width height 2 fail =
            _make_base64_svg width height theme_color (S "Image Unavailable") e
              (S "Retry later"))
    ∧ (ai_image_with_failures prompt style theme_color width height 2 fail =
          _ai_image prompt style theme_color width height
        ∨ ∃ e, ai_image_with_failures prompt style theme_color width height 2 fail =
            _make_base64_svg width height theme_color (S "Image Unavailable") e
              (S "Retry later")) := by
  refine ⟨?_, ?_, ?_⟩
  · intro hagree
    have h0 := hagree 0 (by omega)
    have h1 := hagree 1 (by omega)
    have h2 := hagree 2 (by omega)
    simp only [ai_image_with_failures, ai_image_loop, h0, h1, h2]
  · intro hfails
    cases hf0 : fail 0 with
    | none => exact absurd hf0 (hfails 0 (by omega))
    | some e0 =>
      cases hf1 : fail 1 with
      | none => exact absurd hf1 (hfails 1 (by omega))
      | some e1 =>
        cases hf2 : fail 2 with
        | none => exact absurd hf2 (hfails 2 (by omega))
        | some e2 =>
          refine ⟨e2, rfl, ?_⟩
          simp only [ai_image_with_failures, ai_image_loop, hf0, hf1, hf2, pyOrEmpty]
  · cases hf0 : fail 0 with
    | none =>
      left
      simp only [ai_image_with_failures, ai_image_loop, hf0, _ai_image]
    | some e0 =>
      cases hf1 : fail 1 with
      | none =>
        left
        simp only [ai_image_with_failures, ai_image_loop, hf0, hf1, _ai_image]
      | some e1 =>
        cases hf2 : fail 2 with
        | none =>
          left
          simp only [ai_image_with_failures, ai_image_loop, hf0, hf1, hf2, _ai_image]
        | some e2 =>
          right
          exact ⟨e2, by
            simp only [ai_image_with_failures, ai_image_loop, hf0, hf1, hf2, pyOrEmpty]⟩

/-- Witness for C5: under the all-failing environment the model consults
only the first three attempts and returns the fallback image carrying the
last failure reason. -/
theorem c5_retry_and_fallback_witness :
    (ai_image_with_failures (S "p") (S "s") (S "#000") 9 9 2 failAll =
      ai_image_with_failures (S "p") (S "s") (S "#000") 9 9 2 failAll)
    ∧ (∃ e, failAll 2 = some e ∧
        ai_image_with_failures (S "p") (S "s") (S "#000") 9 9 2 failAll =
          _make_base64_svg 9 9 (S "#000") (S "Image Unavailable") e (S "Retry later")) :=
  ⟨(c5_retry_and_fallback (S "p") (S "s") (S "#000") 9 9 failAll failAll).1
      (fun _ _ => rfl),
   (c5_retry_and_fallback (S "p") (S "s") (S "#000") 9 9 failAll failAll).2.1
      (fun i _ => by simp [failAll])⟩

/-- C7: the Text Synthesizer output is the fixed template — which opens
with the topic and the lower-cased style label — repeated
`max 1 (w / 40)` times and truncated to `w * 5` characters, so its length
is at most `w * 5`. -/
theorem c7_lorem_bounded (topic style : List Char) (w : Nat) (_hw : 1 ≤ w) :
    _generate_lorem topic style w =
      List.take (w * 5) (repeatList (loremBase topic style) (max 1 (w / 40)))
    ∧ (_generate_lorem topic style w).length ≤ w * 5
    ∧ (∃ rest, loremBase topic style =
        topic ++ S " — An exploration in " ++ style.map Char.toLower ++ rest) := by
  refine ⟨rfl, ?_, ?_⟩
  · unfold _generate_lorem
    exact List.length_take_le _ _
  · refine ⟨S " tone. " ++
      (S "This section delves into the core ideas, practical implications, and examples to make the material engaging and accessible. " ++
      (S "We balance clarity with depth, ensuring each concept builds on the previous one while maintaining a compelling narrative arc. " ++
      S "Key takeaways are highlighted with actionable insights and meaningful context. ")), ?_⟩
    simp [loremBase, List.append_assoc]

/-- Witness for C7: the length bound evaluated at the pipeline's own word
budget of 250. -/
theorem c7_lorem_bounded_witness :
    (_generate_lorem (S "physics") (S "Formal") 250).length ≤ 250 * 5 :=
  (c7_lorem_bounded (S "physics") (S "Formal") 250 (by omega)).2.1

/-- C10: the Cover Composer inserts the request's book title, subtitle and
author name into the cover document verbatim and unescaped: each appears
as an exact substring for every request, and a title carrying `&`, `<`,
`>` (which `esc` would have rewritten) still appears raw. -/
theorem c10_cover_inserts_verbatim (req : GenerateRequest) :
    (∃ p q, _cover_html req = p ++ req.book_title ++ q)
    ∧ (∃ p q, _cover_html req = p ++ req.subtitle ++ q)
    ∧ (∃ p q, _cover_html req = p ++ req.author_name ++ q)
    ∧ scriptReq.book_title = S "<script>&</script>"
    ∧ esc (S "<script>&</script>") ≠ S "<script>&</script>"
    ∧ (∃ p q, _cover_html scriptReq = p ++ S "<script>&</script>" ++ q) := by
  refine ⟨?e1, ?e2, ?e3, ?hbt, ?hne, ?e6⟩
  case hbt => decide
  case hne => decide
  · refine ⟨S "<!DOCTYPE html><html><head>" ++ _common_css ++ S "</head><body>" ++
      S "<div class=\"page\" style=\"background-color:" ++ req.theme_color ++
      S "; color:white;\">" ++ S "  <div class=\"center\">" ++
      S "    <img alt=\"Cover\" class=\"page-img\" src=\"" ++ cover_img req ++
      S "\" />" ++ S "    <div class=\"cover-title\">",
      S "</div>" ++ S "    <div class=\"cover-subtitle\">" ++ req.subtitle ++ S "</div>" ++
      S "    <div class=\"author\">By " ++ req.author_name ++ S "</div>" ++
      S "  </div>" ++ S "</div>" ++ S "</body></html>", ?_⟩
    simp [_cover_html, coverBody, List.append_assoc]
  · refine ⟨S "<!DOCTYPE html><html><head>" ++ _common_css ++ S "</head><body>" ++
      S "<div class=\"page\" style=\"background-color:" ++ req.theme_color ++
      S "; color:white;\">" ++ S "  <div class=\"center\">" ++
      S "    <img alt=\"Cover\" class=\"page-img\" src=\"" ++ cover_img req ++
      S "\" />" ++ S "    <div class=\"cover-title\">" ++ req.book_title ++ S "</div>" ++
      S "    <div class=\"cover-subtitle\">",
      S "</div>" ++ S "    <div class=\"author\">By " ++ req.author_name ++ S "</div>" ++
      S "  </div>" ++ S "</div>" ++ S "</body></html>", ?_⟩
    simp [_cover_html, coverBody, List.append_assoc]
  · refine ⟨S "<!DOCTYPE html><html><head>" ++ _common_css ++ S "</head><body>" ++
      S "<div class=\"page\" style=\"background-color:" ++ req.theme_color ++
      S "; color:white;\">" ++ S "  <div class=\"center\">" ++
      S "    <img alt=\"Cover\" class=\"page-img\" src=\"" ++ cover_img req ++
      S "\" />" ++ S "    <div class=\"cover-title\">" ++ req.book_title ++ S "</div>" ++
      S "    <div class=\"cover-subtitle\">" ++ req.subtitle ++ S "</div>" ++
      S "    <div class=\"author\">By ",
      S "</div>" ++ S "  </div>" ++ S "</div>" ++ S "</body></html>", ?_⟩
    simp [_cover_html, coverBody, List.append_assoc]
  · refine ⟨S "<!DOCTYPE html><html><head>" ++ _common_css ++ S "</head><body>" ++
      S "<div class=\"page\" style=\"background-color:" ++ scriptReq.theme_color ++
      S "; color:white;\">" ++ S "  <div class=\"center\">" ++
      S "    <img alt=\"Cover\" class=\"page-img\" src=\"" ++ cover_img scriptReq ++
      S "\" />" ++ S "    <div class=\"cover-title\">",
      S "</div>" ++ S "    <div class=\"cover-subtitle\">" ++ scriptReq.subtitle ++
      S "</div>" ++ S "    <div class=\"author\">By " ++ scriptReq.author_name ++
      S "</div>" ++ S "  </div>" ++ S "</div>" ++ S "</body></html>", ?_⟩
    simp [_cover_html, coverBody, scriptReq, List.append_assoc]
